import Mathlib

/-!
Shallow embedding of the client-side synchronization and rendering core of
the christmas-game repository (src/client/src/App.jsx and
src/client/src/GameCanvas.jsx), over exact rationals.

Conventions of the embedding:
* a JavaScript field that may be `undefined` is an `Option`;
* the JavaScript idiom `a || d` on numbers (falsy for 0 and undefined) is
  `jsOr`; on possibly-undefined arrays (arrays are always truthy) it is
  `Option.getD`;
* the nullish operator `a ?? d` is `Option.getD`;
* `Math.floor` is `Int.floor`, the JavaScript `%` (fmod, truncated toward
  zero) is `jsFmod`;
* transcendental animation outputs (`Math.sin`, `Math.round∘Math.sin`) are
  represented by their exact phase argument, which determines them.
-/

/-- JavaScript `a || d` for an optional number: `0` and `undefined` are falsy. -/
def jsOr (a : Option ℚ) (d : ℚ) : ℚ :=
  match a with
  | none => d
  | some v => if v = 0 then d else v

/-- JavaScript `a || b` for two optional numbers, keeping absence. -/
def jsOrOpt (a b : Option ℚ) : Option ℚ :=
  match a with
  | none => b
  | some v => if v = 0 then b else some v

/-- Truncation toward zero, as JavaScript division-based remainder uses. -/
def ratTrunc (q : ℚ) : ℤ :=
  if 0 ≤ q then ⌊q⌋ else ⌈q⌉

/-- JavaScript `a % b` on numbers: `a - b * trunc(a / b)`. -/
def jsFmod (a b : ℚ) : ℚ :=
  a - b * (ratTrunc (a / b) : ℚ)

/-- Truthiness of an optional string (`undefined` and `""` are falsy). -/
def strTruthy (s : Option String) : Bool :=
  match s with
  | none => false
  | some v => v ≠ ""

/-- Player record as carried by both room rosters and world snapshots. -/
structure Player where
  id : String
  name : String
  color : String
  x : Option ℚ
  y : Option ℚ
  fx : Option ℚ
  fy : Option ℚ
  moving : Bool
  alive : Bool
  team : Option ℕ
  ringsLeft : Option ℤ
  hasLight : Bool
  score : ℤ
  roundScore : ℤ
  ready : Bool
deriving DecidableEq

/-- Gift entity (`id` is numeric in the wire format: it is added to a clock). -/
structure Gift where
  id : ℚ
  x : ℚ
  y : ℚ
  type : Option String
deriving DecidableEq

/-- Monster entity. -/
structure Monster where
  id : ℚ
  x : ℚ
  y : ℚ
  type : Option String
deriving DecidableEq

/-- Decoration entity (only `type = "tree"` is drawn). -/
structure Decoration where
  id : ℚ
  x : ℚ
  y : ℚ
  type : Option String
  size : Option String
deriving DecidableEq

/-- Hazard entity. -/
structure Hazard where
  x : ℚ
  y : ℚ
  type : Option String
  radius : Option ℚ
deriving DecidableEq

/-- Projectile entity. -/
structure Projectile where
  x : ℚ
  y : ℚ
  color : Option String
deriving DecidableEq

/-- Wall rectangle. -/
structure Wall where
  x : ℚ
  y : ℚ
  w : ℚ
  h : ℚ
deriving DecidableEq

/-- Trail square. -/
structure Trail where
  x : ℚ
  y : ℚ
  color : Option String
  size : Option ℚ
deriving DecidableEq

/-- Light pickup: the placeholder world stores the empty object here. -/
structure Light where
  x : Option ℚ
  y : Option ℚ
deriving DecidableEq

/-- World snapshot payload: every collection may be absent. -/
structure World where
  width : Option ℚ
  height : Option ℚ
  players : Option (List Player)
  projectiles : Option (List Projectile)
  monsterProjectiles : Option (List Projectile)
  monsters : Option (List Monster)
  decorations : Option (List Decoration)
  hazards : Option (List Hazard)
  gifts : Option (List Gift)
  walls : Option (List Wall)
  trails : Option (List Trail)
  light : Option Light
deriving DecidableEq

/-- Room metadata payload of the room channel. -/
structure Room where
  code : String
  status : String
  currentRound : ℕ
  maxRounds : ℕ
  roundType : Option String
  roundEndsAt : ℚ
  hostId : String
  width : Option ℚ
  height : Option ℚ
  players : Option (List Player)
deriving DecidableEq

namespace App

/-- Function `roomToWorld` of App.jsx: placeholder world seeded from the room roster,
with default extent 960x540 and every entity collection empty. -/
def roomToWorld (room : Option Room) : Option World :=
  match room with
  | none => none
  | some r => some
      { width := some (jsOr r.width 960)
        height := some (jsOr r.height 540)
        players := some (r.players.getD [])
        projectiles := some []
        monsterProjectiles := some []
        monsters := some []
        decorations := some []
        hazards := some []
        gifts := some []
        walls := some []
        trails := some []
        light := some ⟨none, none⟩ }

/-- Function `mergeWorldWithRoom` of App.jsx: spread of the base world with width,
height and players taken from the room when present or truthy. -/
def mergeWorldWithRoom (prevWorld : Option World) (room : Option Room) : Option World :=
  match room with
  | none => prevWorld
  | some r =>
    let base : World :=
      match prevWorld with
      | some w => w
      | none =>
        { width := some (jsOr r.width 960)
          height := some (jsOr r.height 540)
          players := some (r.players.getD [])
          projectiles := some []
          monsterProjectiles := some []
          monsters := some []
          decorations := some []
          hazards := some []
          gifts := some []
          walls := some []
          trails := some []
          light := some ⟨none, none⟩ }
    some { base with
      width := jsOrOpt r.width base.width
      height := jsOrOpt r.height base.height
      players := some (r.players.getD (base.players.getD [])) }

/-- Client-side store: latest room and latest world value. -/
structure Store where
  room : Option Room
  world : Option World
deriving DecidableEq

/-- The messages the merge engine consumes. -/
inductive Msg where
  | roomUpdate (room : Option Room)
  | worldState (world : World) (room : Option Room)
deriving DecidableEq

/-- The socket handlers of App.jsx: `room_update` stores the room and merges
it into the world; `world_state` replaces the world wholesale and rebuilds
the room with the world players when a room rides along. -/
def ingest (s : Store) : Msg → Store
  | .roomUpdate r =>
      { room := r, world := mergeWorldWithRoom s.world r }
  | .worldState w r =>
      { room :=
          match r with
          | none => s.room
          | some rr => some { rr with players := w.players }
        world := some w }

end App

namespace GameCanvas

/-- Function `roomToWorld` of GameCanvas.jsx: this variant writes no
`monsterProjectiles`, `monsters` or `decorations` keys, so those stay absent. -/
def roomToWorld (room : Option Room) : Option World :=
  match room with
  | none => none
  | some r => some
      { width := some (jsOr r.width 960)
        height := some (jsOr r.height 540)
        players := some (r.players.getD [])
        projectiles := some []
        monsterProjectiles := none
        monsters := none
        decorations := none
        hazards := some []
        gifts := some []
        walls := some []
        trails := some []
        light := some ⟨none, none⟩ }

/-- Function `getSeed` of GameCanvas.jsx: rolling 31-ary hash of the id modulo 997
(falsy input, i.e. the empty string, hashes to 0 through the guard, which the
fold reproduces). -/
def getSeed (value : String) : ℕ :=
  value.foldl (fun hash c => (hash * 31 + c.toNat) % 997) 0

/-- The four facing buckets `getDirection` can return. -/
inductive Dir where
  | up
  | down
  | left
  | right
deriving DecidableEq

/-- Function `getDirection` of GameCanvas.jsx: dominant axis, then a -0.2 threshold. -/
def getDirection (fx fy : ℚ) : Dir :=
  if |fy| > |fx| then
    (if fy < -(1/5) then .up else .down)
  else
    (if fx < -(1/5) then .left else .right)

/-- The render effect's snapshot choice: the world when it carries a players
key, the room-derived placeholder world otherwise. -/
def selectSnapshot (world : Option World) (room : Option Room) : Option World :=
  match world with
  | some w => if w.players.isSome then some w else roomToWorld room
  | none => roomToWorld room

/-- Everything the render effect derives for the camera transform. -/
structure CameraOut where
  worldWidth : ℚ
  worldHeight : ℚ
  useFixedView : Bool
  baseScale : ℚ
  zoom : ℚ
  scale : ℚ
  viewWidth : ℚ
  viewHeight : ℚ
  camX : ℚ
  camY : ℚ
  fitsWidth : Bool
  fitsHeight : Bool
  offsetX : ℚ
  offsetY : ℚ
deriving DecidableEq

/-- The render effect's local-player lookup `snapshot.players?.find(...)`. -/
def findYou (snapshot : World) (youId : String) : Option Player :=
  (snapshot.players.getD []).find? (fun p => p.id == youId)

/-- Camera solve of the GameCanvas render effect (lines 176-199): world
extent with 960x540 fallback, oversized fixed view, base scale, round zoom,
clamped camera corner and per-axis letterbox-or-pan offsets. -/
def solveCamera (snapshot : World) (cw ch : ℚ) (roundType : Option String)
    (youId : String) : CameraOut :=
  let worldWidth := jsOr snapshot.width 960
  let worldHeight := jsOr snapshot.height 540
  let useFixedView : Bool := 2000 < worldWidth ∨ 1200 < worldHeight
  let targetViewWidth := if useFixedView then 1200 else worldWidth
  let targetViewHeight := if useFixedView then 675 else worldHeight
  let baseScale := min (cw / targetViewWidth) (ch / targetViewHeight)
  let zoom : ℚ :=
    if strTruthy roundType ∧ roundType ≠ some "lobby" then
      (if useFixedView then 1 else 23/20)
    else 1
  let scale := baseScale * zoom
  let viewWidth := cw / scale
  let viewHeight := ch / scale
  let you := findYou snapshot youId
  let camX : ℚ :=
    match you with
    | some p => max 0 (min (worldWidth - viewWidth) (p.x.getD (worldWidth / 2) - viewWidth / 2))
    | none => 0
  let camY : ℚ :=
    match you with
    | some p => max 0 (min (worldHeight - viewHeight) (p.y.getD (worldHeight / 2) - viewHeight / 2))
    | none => 0
  let fitsWidth : Bool := worldWidth * scale ≤ cw
  let fitsHeight : Bool := worldHeight * scale ≤ ch
  { worldWidth := worldWidth
    worldHeight := worldHeight
    useFixedView := useFixedView
    baseScale := baseScale
    zoom := zoom
    scale := scale
    viewWidth := viewWidth
    viewHeight := viewHeight
    camX := camX
    camY := camY
    fitsWidth := fitsWidth
    fitsHeight := fitsHeight
    offsetX := if fitsWidth then (cw - worldWidth * scale) / 2 else -camX * scale
    offsetY := if fitsHeight then (ch - worldHeight * scale) / 2 else -camY * scale }

/-- Animated draw of one player (lines 398-447): position with grid fallback,
facing bucket, foot-step frame, bob phase, team-ring radii, rings for the
snowball round, and the self ring. `bobPhase` carries the argument of
`Math.round(Math.sin(...))`; `none` when not moving (bob 0). -/
structure PlayerDraw where
  id : String
  px : ℚ
  py : ℚ
  direction : Dir
  step : ℤ
  bobPhase : Option ℚ
  alive : Bool
  ringRadii : List ℚ
  selfRing : Bool
deriving DecidableEq

/-- Team-ring radii drawn for one player (lines 423-434): only in the
snowball round for alive players, `max(0, min(3, ringsLeft ?? 0))` circles. -/
def ringCircles (roundType : Option String) (p : Player) : List ℚ :=
  if roundType = some "snowball" ∧ p.alive then
    let rings : ℤ := max 0 (min 3 (p.ringsLeft.getD 0))
    if rings ≠ 0 then (List.range rings.toNat).map (fun i : ℕ => 18 + (i : ℚ) * 4)
    else []
  else []

/-- One player's draw record, from index and fields. -/
def playerDraw (worldWidth worldHeight : ℚ) (roundType : Option String)
    (youId : String) (t : ℚ) (index : ℕ) (p : Player) : PlayerDraw :=
  let px := p.x.getD (worldWidth / 2 + ((index % 4 : ℕ) : ℚ) * 36 - 54)
  let py := p.y.getD (worldHeight / 2 + ((index / 4 : ℕ) : ℚ) * 36 - 36)
  { id := p.id
    px := px
    py := py
    direction := getDirection (p.fx.getD 1) (p.fy.getD 0)
    step := if p.moving then ⌊jsFmod (t * 8 + (getSeed p.id : ℚ)) 2⌋ else 0
    bobPhase := if p.moving then some (t * 10 + (getSeed p.id : ℚ)) else none
    alive := p.alive
    ringRadii := ringCircles roundType p
    selfRing := p.id == youId }

/-- Truthiness test the light marker uses: `snapshot.light && snapshot.light.x`. -/
def lightTruthy (light : Option Light) : Bool :=
  match light with
  | none => false
  | some l =>
    match l.x with
    | none => false
    | some v => v ≠ 0

/-- Whether the minimap overlay is active:
`roundType && ["snowball", "light"].includes(roundType)`. -/
def minimapActive (roundType : Option String) : Bool :=
  strTruthy roundType &&
    (roundType = some "snowball" ∨ roundType = some "light")

/-- The minimap linear map on the x axis (line 479). -/
def toMapX (mapX mapWidth worldWidth x : ℚ) : ℚ :=
  mapX + (x / worldWidth) * mapWidth

/-- The minimap linear map on the y axis (line 480). -/
def toMapY (mapY mapHeight worldHeight y : ℚ) : ℚ :=
  mapY + (y / worldHeight) * mapHeight

/-- Inverse of the minimap x map, as the linear solve of `toMapX`. -/
def fromMapX (mapX mapWidth worldWidth mx : ℚ) : ℚ :=
  ((mx - mapX) / mapWidth) * worldWidth

/-- Inverse of the minimap y map, as the linear solve of `toMapY`. -/
def fromMapY (mapY mapHeight worldHeight my : ℚ) : ℚ :=
  ((my - mapY) / mapHeight) * worldHeight

/-- The animated, store-dependent part of one frame, per entity kind.
Animation of gifts, monsters and trees is recorded as the exact sine phase
of the bob or sway; players carry the full draw record. -/
structure FrameOut where
  worldWidth : ℚ
  worldHeight : ℚ
  giftDraws : List (ℚ × ℚ × ℚ)
  monsterDraws : List (ℚ × ℚ × ℚ)
  treeDraws : List (ℚ × ℚ × ℚ)
  playerDraws : List PlayerDraw
  lightMarker : Bool
  minimapLightMarker : Bool
deriving DecidableEq

/-- Draws of the gift layer: `sin(now*3 + gift.id)` bob phase. -/
def giftDraws (snapshot : World) (t : ℚ) : List (ℚ × ℚ × ℚ) :=
  (snapshot.gifts.getD []).map (fun g => (g.x, g.y, t * 3 + g.id))

/-- Draws of the monster layer: `sin(now*2 + monster.id)` bob phase. -/
def monsterDraws (snapshot : World) (t : ℚ) : List (ℚ × ℚ × ℚ) :=
  (snapshot.monsters.getD []).map (fun m => (m.x, m.y, t * 2 + m.id))

/-- Draws of the decoration layer: trees only, `sin(now*1.4 + deco.id)` sway. -/
def treeDraws (snapshot : World) (t : ℚ) : List (ℚ × ℚ × ℚ) :=
  ((snapshot.decorations.getD []).filter (fun d => d.type = some "tree")).map
    (fun d => (d.x, d.y, t * 7/5 + d.id))

/-- Render of one frame from the store at local clock `t`: snapshot choice,
then the animated layers. Returns `none` exactly when the effect bails out
(no world players and no room). -/
def renderFrame (world : Option World) (room : Option Room) (roundType : Option String)
    (youId : String) (t : ℚ) : Option FrameOut :=
  match selectSnapshot world room with
  | none => none
  | some snap =>
    let ww := jsOr snap.width 960
    let wh := jsOr snap.height 540
    some
      { worldWidth := ww
        worldHeight := wh
        giftDraws := giftDraws snap t
        monsterDraws := monsterDraws snap t
        treeDraws := treeDraws snap t
        playerDraws := (snap.players.getD []).enum.map
          (fun ip => playerDraw ww wh roundType youId t ip.1 ip.2)
        lightMarker := lightTruthy snap.light
        minimapLightMarker := minimapActive roundType && lightTruthy snap.light }

end GameCanvas

/-- A world with every optional field absent, for fallback scenarios. -/
def emptyWorld : World :=
  { width := none
    height := none
    players := none
    projectiles := none
    monsterProjectiles := none
    monsters := none
    decorations := none
    hazards := none
    gifts := none
    walls := none
    trails := none
    light := none }

/-- The 960x540 lobby world of the letterbox test case. -/
def lobbySnap : World :=
  { emptyWorld with
    width := some 960
    height := some 540
    players := some [] }

/-- A player standing near the left edge of an oversized world. -/
def bigPlayer : Player :=
  { id := "p1"
    name := "p1"
    color := "red"
    x := some 100
    y := some 200
    fx := some 1
    fy := some 0
    moving := true
    alive := true
    team := some 0
    ringsLeft := some 3
    hasLight := false
    score := 0
    roundScore := 0
    ready := false }

/-- The oversized 3000x1500 world of the panning-clamp test case. -/
def bigSnap : World :=
  { emptyWorld with
    width := some 3000
    height := some 1500
    players := some [bigPlayer] }

/-- Roster entry for player "a" with the placeholder position (10, 20). -/
def c1RoomPlayer : Player :=
  { id := "a"
    name := "Alice"
    color := "red"
    x := some 10
    y := some 20
    fx := some 1
    fy := some 0
    moving := false
    alive := true
    team := some 0
    ringsLeft := some 3
    hasLight := false
    score := 5
    roundScore := 1
    ready := true }

/-- World-channel entry for the same player "a" at the precise (200, 300). -/
def c1WorldPlayer : Player :=
  { c1RoomPlayer with
    x := some 200
    y := some 300
    moving := true }

/-- The room update used twice in the merge-precedence sequence. -/
def c1Room : Room :=
  { code := "ABCD"
    status := "in_round"
    currentRound := 1
    maxRounds := 5
    roundType := some "snowball"
    roundEndsAt := 0
    hostId := "a"
    width := some 960
    height := some 540
    players := some [c1RoomPlayer] }

/-- The world snapshot with the precise position for player "a". -/
def c1World : World :=
  { emptyWorld with
    width := some 960
    height := some 540
    players := some [c1WorldPlayer] }

/-- Empty store at room join. -/
def c1Store0 : App.Store := { room := none, world := none }

/-- Store after the first room update. -/
def c1Store1 : App.Store := App.ingest c1Store0 (App.Msg.roomUpdate (some c1Room))

/-- Store after the world snapshot. -/
def c1Store2 : App.Store := App.ingest c1Store1 (App.Msg.worldState c1World none)

/-- Store after the later, out-of-order room update. -/
def c1Store3 : App.Store := App.ingest c1Store2 (App.Msg.roomUpdate (some c1Room))
/-- The eight compass unit vectors an 8-way classifier must separate. -/
def compassVectors : List (ℚ × ℚ) :=
  [(0, -1), (1, -1), (1, 0), (1, 1), (0, 1), (-1, 1), (-1, 0), (-1, -1)]
/-- A room carrying no extent and no roster, for the fallback scenario. -/
def c8Room : Room :=
  { code := "ZZZZ"
    status := "lobby"
    currentRound := 0
    maxRounds := 5
    roundType := none
    roundEndsAt := 0
    hostId := "h"
    width := none
    height := none
    players := none }
/-- An alive player reported with five rings left, beyond the cap. -/
def overRingedPlayer : Player :=
  { bigPlayer with
    id := "p9"
    ringsLeft := some 5 }

/-- A dead player in the snowball round. -/
def deadPlayer : Player :=
  { bigPlayer with
    id := "p9d"
    alive := false
    ringsLeft := some 2 }
/-- A world whose light pickup sits exactly at x = 0. -/
def zeroLightWorld : World :=
  { emptyWorld with
    players := some []
    light := some ⟨some 0, some 7⟩ }

open GameCanvas in
/-- C2: per axis independently, the offset is the letterbox centering
`(viewportDim - worldDim * scale) / 2` when `worldDim * scale <= viewportDim`
and the pan `-camera * scale` otherwise; in the 960x540 lobby case at
viewport 800x450 the scale is 5/6 (0.8333 to four decimals) and both
offsets are 0. -/
theorem letterbox_pan_per_axis (snapshot : World) (cw ch : ℚ)
    (rt : Option String) (yid : String) :
    ((solveCamera snapshot cw ch rt yid).offsetX =
      if (solveCamera snapshot cw ch rt yid).worldWidth *
          (solveCamera snapshot cw ch rt yid).scale ≤ cw then
        (cw - (solveCamera snapshot cw ch rt yid).worldWidth *
          (solveCamera snapshot cw ch rt yid).scale) / 2
      else -(solveCamera snapshot cw ch rt yid).camX *
          (solveCamera snapshot cw ch rt yid).scale)
    ∧ ((solveCamera snapshot cw ch rt yid).offsetY =
      if (solveCamera snapshot cw ch rt yid).worldHeight *
          (solveCamera snapshot cw ch rt yid).scale ≤ ch then
        (ch - (solveCamera snapshot cw ch rt yid).worldHeight *
          (solveCamera snapshot cw ch rt yid).scale) / 2
      else -(solveCamera snapshot cw ch rt yid).camY *
          (solveCamera snapshot cw ch rt yid).scale)
    ∧ (solveCamera lobbySnap 800 450 (some "lobby") "me").scale = 5/6
    ∧ |(solveCamera lobbySnap 800 450 (some "lobby") "me").scale - 8333/10000|
        < 1/10000
    ∧ (solveCamera lobbySnap 800 450 (some "lobby") "me").offsetX = 0
    ∧ (solveCamera lobbySnap 800 450 (some "lobby") "me").offsetY = 0 := by
  refine ⟨?_, ?_, ?_, ?_, ?_, ?_⟩
  · simp [solveCamera]
  · simp [solveCamera]
  · simp [solveCamera, lobbySnap, emptyWorld, jsOr, strTruthy, findYou]
    norm_num
  · simp [solveCamera, lobbySnap, emptyWorld, jsOr, strTruthy, findYou]
    norm_num [abs_lt]
  · simp [solveCamera, lobbySnap, emptyWorld, jsOr, strTruthy, findYou]
    norm_num
  · simp [solveCamera, lobbySnap, emptyWorld, jsOr, strTruthy, findYou]
    norm_num

open GameCanvas in
/-- C4: the target view window is fixed at 1200x675 exactly when the world
is wider than 2000 or taller than 1200 and is the world extent otherwise;
the base scale is the min of the per-axis viewport/target ratios; zoom is
23/20 (1.15) in an active non-lobby round on non-oversized worlds and 1
for oversized worlds or the lobby; scale is baseScale * zoom. -/
theorem oversized_view_and_zoom (snapshot : World) (cw ch : ℚ)
    (rt : Option String) (yid : String) :
    ((solveCamera snapshot cw ch rt yid).useFixedView =
      decide (2000 < (solveCamera snapshot cw ch rt yid).worldWidth ∨
        1200 < (solveCamera snapshot cw ch rt yid).worldHeight))
    ∧ ((solveCamera snapshot cw ch rt yid).baseScale =
      min (cw / (if (solveCamera snapshot cw ch rt yid).useFixedView then 1200
          else (solveCamera snapshot cw ch rt yid).worldWidth))
        (ch / (if (solveCamera snapshot cw ch rt yid).useFixedView then 675
          else (solveCamera snapshot cw ch rt yid).worldHeight)))
    ∧ ((solveCamera snapshot cw ch rt yid).zoom =
      if strTruthy rt ∧ rt ≠ some "lobby" then
        (if (solveCamera snapshot cw ch rt yid).useFixedView then 1 else 23/20)
      else 1)
    ∧ ((solveCamera snapshot cw ch rt yid).scale =
      (solveCamera snapshot cw ch rt yid).baseScale *
        (solveCamera snapshot cw ch rt yid).zoom) := by
  refine ⟨?_, ?_, ?_, ?_⟩ <;> simp [solveCamera]

open GameCanvas in
/-- C6: the minimap transform is the linear map
`toMapX x = mapX + (x / W) * mapWidth` (and the y analog), the inverse
linear map recovers every world point exactly over the rationals, and for
world 960x540 with map rectangle (0, 0, 100, 225/4) the point (480, 270)
maps to (50, 225/8), that is (50, 28.125). -/
theorem minimap_linear_roundtrip (mapX mapY mapW mapH W H x y : ℚ)
    (hW : W ≠ 0) (hH : H ≠ 0) (hmw : mapW ≠ 0) (hmh : mapH ≠ 0) :
    toMapX mapX mapW W x = mapX + (x / W) * mapW
    ∧ toMapY mapY mapH H y = mapY + (y / H) * mapH
    ∧ fromMapX mapX mapW W (toMapX mapX mapW W x) = x
    ∧ fromMapY mapY mapH H (toMapY mapY mapH H y) = y
    ∧ toMapX 0 100 960 480 = 50
    ∧ toMapY 0 (225/4) 540 270 = 225/8 := by
  refine ⟨rfl, rfl, ?_, ?_, ?_, ?_⟩
  · unfold fromMapX toMapX
    field_simp
    ring
  · unfold fromMapY toMapY
    field_simp
    ring
  · norm_num [toMapX]
  · norm_num [toMapY]

open GameCanvas in
/-- Witness for C6 at world 960x540, map rectangle (0, 0, 100, 225/4) and
world point (480, 270). -/
theorem minimap_linear_roundtrip_witness :
    ((960:ℚ) ≠ 0 ∧ (540:ℚ) ≠ 0 ∧ (100:ℚ) ≠ 0 ∧ (225/4:ℚ) ≠ 0)
    ∧ fromMapX 0 100 960 (toMapX 0 100 960 480) = 480
    ∧ fromMapY 0 (225/4) 540 (toMapY 0 (225/4) 540 270) = 270 := by
  have h := minimap_linear_roundtrip 0 0 100 (225/4) 960 540 480 270
    (by norm_num) (by norm_num) (by norm_num) (by norm_num)
  exact ⟨⟨by norm_num, by norm_num, by norm_num, by norm_num⟩, h.2.2.1, h.2.2.2.1⟩

/-- Shifting a clamp of the camera corner by half the view width turns it
into a clamp of the camera center. -/
lemma corner_clamp_as_center_clamp (W v x : ℚ) :
    max 0 (min (W - v) (x - v / 2)) + v / 2
      = max (v / 2) (min (W - v / 2) x) := by
  rw [← max_add_add_right, ← min_add_add_right]
  ring_nf

/-- A corner clamp degenerates to 0 when the world is smaller than the view. -/
lemma corner_clamp_degenerate (W v x : ℚ) (h : W < v) :
    max 0 (min (W - v) (x - v / 2)) = 0 := by
  apply max_eq_left
  exact le_trans (min_le_left _ _) (by linarith)

open GameCanvas in
/-- C3: with a local player, the camera center per axis is the player's
position clamped into the interval from half the view to the world extent
minus half the view; the camera corner degenerates to 0 when the world is
smaller than the view on that axis; without a local player the camera is
the world origin; and in the oversized 3000x1500 world at viewport 800x450
in an active round with the local player at x = 100 the offsetX is 0, not
a negative pan. -/
theorem camera_center_clamp (snapshot : World) (cw ch : ℚ)
    (rt : Option String) (yid : String) :
    ((findYou snapshot yid = none →
        (solveCamera snapshot cw ch rt yid).camX = 0 ∧
        (solveCamera snapshot cw ch rt yid).camY = 0)
    ∧ (∀ p, findYou snapshot yid = some p →
        (((solveCamera snapshot cw ch rt yid).worldWidth <
            (solveCamera snapshot cw ch rt yid).viewWidth →
          (solveCamera snapshot cw ch rt yid).camX = 0)
        ∧ ((solveCamera snapshot cw ch rt yid).viewWidth ≤
            (solveCamera snapshot cw ch rt yid).worldWidth →
          (solveCamera snapshot cw ch rt yid).camX +
              (solveCamera snapshot cw ch rt yid).viewWidth / 2
            = max ((solveCamera snapshot cw ch rt yid).viewWidth / 2)
                (min ((solveCamera snapshot cw ch rt yid).worldWidth -
                    (solveCamera snapshot cw ch rt yid).viewWidth / 2)
                  (p.x.getD ((solveCamera snapshot cw ch rt yid).worldWidth / 2))))
        ∧ ((solveCamera snapshot cw ch rt yid).worldHeight <
            (solveCamera snapshot cw ch rt yid).viewHeight →
          (solveCamera snapshot cw ch rt yid).camY = 0)
        ∧ ((solveCamera snapshot cw ch rt yid).viewHeight ≤
            (solveCamera snapshot cw ch rt yid).worldHeight →
          (solveCamera snapshot cw ch rt yid).camY +
              (solveCamera snapshot cw ch rt yid).viewHeight / 2
            = max ((solveCamera snapshot cw ch rt yid).viewHeight / 2)
                (min ((solveCamera snapshot cw ch rt yid).worldHeight -
                    (solveCamera snapshot cw ch rt yid).viewHeight / 2)
                  (p.y.getD ((solveCamera snapshot cw ch rt yid).worldHeight / 2))))))
    ∧ (solveCamera bigSnap 800 450 (some "snowball") "p1").camX = 0
    ∧ (solveCamera bigSnap 800 450 (some "snowball") "p1").offsetX = 0) := by
  refine ⟨?_, ?_, ?_, ?_⟩
  · intro h
    simp [solveCamera, h]
  · intro p hp
    refine ⟨?_, ?_, ?_, ?_⟩
    · intro hlt
      simp only [solveCamera, hp] at hlt ⊢
      exact corner_clamp_degenerate _ _ _ hlt
    · intro hle
      simp only [solveCamera, hp] at hle ⊢
      exact corner_clamp_as_center_clamp _ _ _
    · intro hlt
      simp only [solveCamera, hp] at hlt ⊢
      exact corner_clamp_degenerate _ _ _ hlt
    · intro hle
      simp only [solveCamera, hp] at hle ⊢
      exact corner_clamp_as_center_clamp _ _ _
  · simp [solveCamera, bigSnap, bigPlayer, emptyWorld, jsOr, strTruthy, findYou,
      List.find?]
    norm_num
  · simp [solveCamera, bigSnap, bigPlayer, emptyWorld, jsOr, strTruthy, findYou,
      List.find?]
    norm_num

open GameCanvas in
/-- Witness for C3 in the oversized 3000x1500 world at viewport 800x450:
the local-player lookup succeeds, the view fits the world, and the camera
center equals the clamped player position. -/
theorem camera_center_clamp_witness :
    findYou bigSnap "p1" = some bigPlayer
    ∧ (solveCamera bigSnap 800 450 (some "snowball") "p1").viewWidth ≤
        (solveCamera bigSnap 800 450 (some "snowball") "p1").worldWidth
    ∧ (solveCamera bigSnap 800 450 (some "snowball") "p1").camX +
          (solveCamera bigSnap 800 450 (some "snowball") "p1").viewWidth / 2
        = max ((solveCamera bigSnap 800 450 (some "snowball") "p1").viewWidth / 2)
            (min ((solveCamera bigSnap 800 450 (some "snowball") "p1").worldWidth -
                (solveCamera bigSnap 800 450 (some "snowball") "p1").viewWidth / 2)
              (bigPlayer.x.getD
                ((solveCamera bigSnap 800 450 (some "snowball") "p1").worldWidth / 2))) := by
  have hfind : findYou bigSnap "p1" = some bigPlayer := by
    simp [findYou, bigSnap, emptyWorld, bigPlayer, List.find?]
  have hle : (solveCamera bigSnap 800 450 (some "snowball") "p1").viewWidth ≤
      (solveCamera bigSnap 800 450 (some "snowball") "p1").worldWidth := by
    simp [solveCamera, bigSnap, bigPlayer, emptyWorld, jsOr, strTruthy, findYou,
      List.find?]
    norm_num
  exact ⟨hfind, hle,
    ((camera_center_clamp bigSnap 800 450 (some "snowball") "p1").2.1 bigPlayer
      hfind).2.1 hle⟩

/-- C1 counterexample: for the sequence room update, world snapshot, room
update on an initially empty store, the next render draws player "a" at the
room roster position (10, 20), not at the world snapshot position
(200, 300): the later room update did change the player's position. -/
theorem c1_room_update_overwrites_world_positions :
    (GameCanvas.renderFrame c1Store3.world c1Store3.room (some "snowball") "a" 0).map
        (fun f => f.playerDraws.map (fun d => (d.id, d.px, d.py)))
      = some [("a", 10, 20)]
    ∧ c1World.players = some [c1WorldPlayer]
    ∧ c1WorldPlayer.x = some 200
    ∧ c1WorldPlayer.y = some 300
    ∧ ((10 : ℚ), (20 : ℚ)) ≠ ((200 : ℚ), (300 : ℚ)) := by
  refine ⟨?_, rfl, rfl, rfl, by norm_num⟩
  rfl

open App in
/-- C1 amended: a later room update that carries a players array replaces
the world's players wholesale — placeholder positions included — rather
than preserving world-snapshot positions; only width and height fall back
to the previously held world values when the room's are absent or zero,
and the other world collections are kept. -/
theorem later_room_update_replaces_players (s : Store) (w : World) (r : Room)
    (ps : List Player) (hw : s.world = some w) (hp : r.players = some ps) :
    (ingest s (Msg.roomUpdate (some r))).world
      = some { w with
          width := jsOrOpt r.width w.width
          height := jsOrOpt r.height w.height
          players := some ps } := by
  simp [ingest, mergeWorldWithRoom, hw, hp]

open App in
/-- Witness for the amended C1 at the concrete merge-precedence sequence:
the store after the world snapshot holds that world, the later room update
carries the roster, and ingesting it replaces the players with the roster. -/
theorem later_room_update_replaces_players_witness :
    c1Store2.world = some c1World
    ∧ c1Room.players = some [c1RoomPlayer]
    ∧ (ingest c1Store2 (Msg.roomUpdate (some c1Room))).world
        = some { c1World with
            width := jsOrOpt c1Room.width c1World.width
            height := jsOrOpt c1Room.height c1World.height
            players := some [c1RoomPlayer] } :=
  ⟨rfl, rfl,
    later_room_update_replaces_players c1Store2 c1World c1Room [c1RoomPlayer] rfl rfl⟩

/-- Merging `a || (a || b)` collapses for optional numbers. -/
lemma jsOrOpt_idem (a b : Option ℚ) : jsOrOpt a (jsOrOpt a b) = jsOrOpt a b := by
  cases a with
  | none => rfl
  | some v =>
    by_cases h : v = 0 <;> simp [jsOrOpt, h]

/-- Defaulting twice with the same option collapses. -/
lemma option_getD_idem {α : Type} (a : Option α) (d : α) :
    a.getD (a.getD d) = a.getD d := by
  cases a <;> rfl

/-- Re-merging the same room into an already merged world changes nothing. -/
lemma mergeWorldWithRoom_idem (wo : Option World) (r : Option Room) :
    App.mergeWorldWithRoom (App.mergeWorldWithRoom wo r) r
      = App.mergeWorldWithRoom wo r := by
  cases r with
  | none => rfl
  | some rr =>
    cases wo with
    | none =>
      simp [App.mergeWorldWithRoom, jsOrOpt_idem, option_getD_idem]
    | some w =>
      simp [App.mergeWorldWithRoom, jsOrOpt_idem, option_getD_idem]

/-- Ingesting the same message twice leaves the store where one ingest put it. -/
lemma ingest_idem (s : App.Store) (m : App.Msg) :
    App.ingest (App.ingest s m) m = App.ingest s m := by
  cases m with
  | roomUpdate r => simp [App.ingest, mergeWorldWithRoom_idem]
  | worldState w r => cases r <;> simp [App.ingest]

/-- Any number of repeated ingests of the same message is one ingest. -/
lemma iterate_ingest_fixed (s : App.Store) (m : App.Msg) (n : ℕ) :
    (fun st => App.ingest st m)^[n] (App.ingest s m) = App.ingest s m := by
  induction n with
  | zero => rfl
  | succ k ih => rw [Function.iterate_succ_apply', ih, ingest_idem]

open App GameCanvas in
/-- C5: rendering the store at local clock `t` yields the same draw output
no matter how many additional ingest calls with identical content happened
in between — the frame is a pure function of the store and `t`, and every
animation phase in it is derived from `t` and the stable id hash, never
from a per-frame counter. -/
theorem animation_two_run_determinism (s : Store) (m : Msg) (n : ℕ)
    (rt : Option String) (yid : String) (t : ℚ) :
    renderFrame ((fun st => ingest st m)^[n] (ingest s m)).world
        ((fun st => ingest st m)^[n] (ingest s m)).room rt yid t
      = renderFrame (ingest s m).world (ingest s m).room rt yid t := by
  rw [iterate_ingest_fixed]

open GameCanvas in
/-- C7 counterexample: on the eight compass vectors the facing classifier
produces only four distinct buckets — the four diagonals collapse onto the
axis buckets — so it does not classify into eight directional buckets. -/
theorem facing_has_only_four_buckets :
    (compassVectors.map (fun p => getDirection p.1 p.2))
      = [Dir.up, Dir.right, Dir.right, Dir.right,
         Dir.down, Dir.left, Dir.left, Dir.left]
    ∧ ((compassVectors.map (fun p => getDirection p.1 p.2)).dedup).length = 4
    ∧ (4 : ℕ) ≠ 8 := by
  have h : (compassVectors.map (fun p => getDirection p.1 p.2))
      = [Dir.up, Dir.right, Dir.right, Dir.right,
         Dir.down, Dir.left, Dir.left, Dir.left] := by
    simp only [compassVectors, List.map_cons, List.map_nil, getDirection]
    norm_num
  refine ⟨h, ?_, by norm_num⟩
  rw [h]
  decide

open GameCanvas in
/-- C7 amended: the facing overlay classifies every facing vector into one
of four directional buckets (up, down, left, right) chosen by the dominant
axis with a -0.2 threshold on the negative side, and the 2-frame foot-step
alternation of a moving player is keyed by
`floor((t * 8 + hash(id)) mod 2)`. -/
theorem four_bucket_facing_and_step (fx fy t : ℚ) (ww wh : ℚ)
    (rt : Option String) (yid : String) (i : ℕ) (p : Player)
    (hmoving : p.moving = true) :
    (getDirection fx fy = Dir.up ∨ getDirection fx fy = Dir.down ∨
      getDirection fx fy = Dir.left ∨ getDirection fx fy = Dir.right)
    ∧ (getDirection fx fy =
        if |fy| > |fx| then (if fy < -(1/5) then Dir.up else Dir.down)
        else (if fx < -(1/5) then Dir.left else Dir.right))
    ∧ (playerDraw ww wh rt yid t i p).step
        = ⌊jsFmod (t * 8 + (getSeed p.id : ℚ)) 2⌋ := by
  refine ⟨?_, rfl, ?_⟩
  · unfold getDirection
    split_ifs <;> simp
  · simp [playerDraw, hmoving]

open GameCanvas in
/-- Witness for the amended C7: facing (1, 1) lands in a bucket, and the
step of the concrete moving player follows the floor-mod formula. -/
theorem four_bucket_facing_and_step_witness :
    bigPlayer.moving = true
    ∧ (getDirection 1 1 = Dir.up ∨ getDirection 1 1 = Dir.down ∨
        getDirection 1 1 = Dir.left ∨ getDirection 1 1 = Dir.right)
    ∧ (playerDraw 3000 1500 (some "snowball") "p1" (1/2) 0 bigPlayer).step
        = ⌊jsFmod ((1/2 : ℚ) * 8 + (getSeed bigPlayer.id : ℚ)) 2⌋ := by
  have h := four_bucket_facing_and_step 1 1 (1/2) 3000 1500 (some "snowball")
    "p1" 0 bigPlayer rfl
  exact ⟨rfl, h.1, h.2.2⟩

open GameCanvas in
/-- C8: the camera solve and render are total functions with defaults —
absent world extent falls back to 960x540, an absent players collection
(hence no local player) gives camera (0, 0), the room-derived placeholder
world has every entity collection empty or absent and draws nothing
animated, every absent optional collection draws as empty, and the render
always produces a frame from a room even with no world. -/
theorem total_fallback_defaults (snap : World) (cw ch t : ℚ)
    (rt : Option String) (yid : String) (r : Room)
    (hw : snap.width = none) (hh : snap.height = none)
    (hp : snap.players = none) :
    (solveCamera snap cw ch rt yid).worldWidth = 960
    ∧ (solveCamera snap cw ch rt yid).worldHeight = 540
    ∧ (solveCamera snap cw ch rt yid).camX = 0
    ∧ (solveCamera snap cw ch rt yid).camY = 0
    ∧ (∃ w, roomToWorld (some r) = some w
        ∧ w.players = some (r.players.getD [])
        ∧ w.projectiles = some []
        ∧ w.hazards = some []
        ∧ w.gifts = some []
        ∧ w.walls = some []
        ∧ w.trails = some []
        ∧ w.light = some ⟨none, none⟩
        ∧ w.monsters = none
        ∧ w.decorations = none
        ∧ w.monsterProjectiles = none
        ∧ giftDraws w t = []
        ∧ monsterDraws w t = []
        ∧ treeDraws w t = []
        ∧ lightTruthy w.light = false)
    ∧ (∀ s : World, s.gifts = none → giftDraws s t = [])
    ∧ (∀ s : World, s.monsters = none → monsterDraws s t = [])
    ∧ (∀ s : World, s.decorations = none → treeDraws s t = [])
    ∧ (∀ s : World, s.light = none → lightTruthy s.light = false)
    ∧ (∃ fo, renderFrame none (some r) rt yid t = some fo) := by
  refine ⟨?_, ?_, ?_, ?_, ?_, ?_, ?_, ?_, ?_, ?_⟩
  · simp [solveCamera, hw, jsOr]
  · simp [solveCamera, hh, jsOr]
  · simp [solveCamera, findYou, hp]
  · simp [solveCamera, findYou, hp]
  · refine ⟨_, rfl, rfl, rfl, rfl, rfl, rfl, rfl, rfl, rfl, rfl, rfl, ?_, ?_, ?_, ?_⟩
    · simp [giftDraws]
    · simp [monsterDraws]
    · simp [treeDraws]
    · simp [lightTruthy]
  · intro s hs
    simp [giftDraws, hs]
  · intro s hs
    simp [monsterDraws, hs]
  · intro s hs
    simp [treeDraws, hs]
  · intro s hs
    simp [lightTruthy, hs]
  · exact ⟨_, rfl⟩

open GameCanvas in
/-- Witness for C8 at the all-absent world and the extent-free lobby room. -/
theorem total_fallback_defaults_witness :
    (emptyWorld.width = none ∧ emptyWorld.height = none ∧
      emptyWorld.players = none)
    ∧ (solveCamera emptyWorld 800 450 none "me").worldWidth = 960
    ∧ (solveCamera emptyWorld 800 450 none "me").worldHeight = 540
    ∧ (solveCamera emptyWorld 800 450 none "me").camX = 0
    ∧ (solveCamera emptyWorld 800 450 none "me").camY = 0
    ∧ (∃ fo, renderFrame none (some c8Room) none "me" 0 = some fo) := by
  have h := total_fallback_defaults emptyWorld 800 450 0 none "me" c8Room
    rfl rfl rfl
  exact ⟨⟨rfl, rfl, rfl⟩, h.1, h.2.1, h.2.2.1, h.2.2.2.1,
    h.2.2.2.2.2.2.2.2.2⟩

open GameCanvas in
/-- C9: the number of team-ring circles drawn for a player equals
`max(0, min(3, ringsLeft))` with a missing `ringsLeft` treated as 0, only
in the snowball round and only for alive players; it never exceeds 3. -/
theorem ring_count_clamp (rt : Option String) (p : Player) :
    (((ringCircles rt p).length : ℤ)
      = if rt = some "snowball" ∧ p.alive = true then
          max 0 (min 3 (p.ringsLeft.getD 0))
        else 0)
    ∧ (ringCircles rt p).length ≤ 3
    ∧ (p.alive = false → ringCircles rt p = [])
    ∧ (rt ≠ some "snowball" → ringCircles rt p = [])
    ∧ (p.ringsLeft = none → ringCircles rt p = []) := by
  refine ⟨?_, ?_, ?_, ?_, ?_⟩
  · simp only [ringCircles]
    split_ifs with h1 h2
    · simp only [List.length_map, List.length_range]
      exact Int.toNat_of_nonneg (le_max_left _ _)
    · push_neg at h2
      simp [h2]
    · simp
  · simp only [ringCircles]
    split_ifs with h1 h2
    · simp only [List.length_map, List.length_range]
      omega
    · simp
    · simp
  · intro h
    simp [ringCircles, h]
  · intro h
    simp [ringCircles, h]
  · intro h
    simp [ringCircles, h]

open GameCanvas in
/-- Witness for C9: a dead player draws no rings, and an alive player with
five reported rings draws exactly the clamped count. -/
theorem ring_count_clamp_witness :
    deadPlayer.alive = false
    ∧ ringCircles (some "snowball") deadPlayer = []
    ∧ ((ringCircles (some "snowball") overRingedPlayer).length : ℤ)
        = max 0 (min 3 (overRingedPlayer.ringsLeft.getD 0))
    ∧ (ringCircles (some "snowball") overRingedPlayer).length = 3 := by
  refine ⟨rfl, (ring_count_clamp (some "snowball") deadPlayer).2.2.1 rfl, ?_, ?_⟩
  · have h := (ring_count_clamp (some "snowball") overRingedPlayer).1
    simpa [overRingedPlayer, bigPlayer] using h
  · simp [ringCircles, overRingedPlayer, bigPlayer]

open GameCanvas in
/-- C10: the light marker is drawn, in the world layer and (when the
minimap is active) on the minimap, exactly when the snapshot has a light
object whose x coordinate is truthy; a light at x = 0 or the empty
placeholder light counts as absent and draws no marker. -/
theorem light_marker_truthiness (snap : World) (rt : Option String)
    (yid : String) (t : ℚ) :
    (lightTruthy snap.light = true ↔
      ∃ l v, snap.light = some l ∧ l.x = some v ∧ v ≠ 0)
    ∧ (∀ fo, renderFrame (some snap) none rt yid t = some fo →
        fo.lightMarker = lightTruthy snap.light
        ∧ fo.minimapLightMarker = (minimapActive rt && lightTruthy snap.light))
    ∧ (∀ ly, snap.light = some ⟨some 0, ly⟩ → lightTruthy snap.light = false)
    ∧ (snap.light = some ⟨none, none⟩ → lightTruthy snap.light = false) := by
  refine ⟨?_, ?_, ?_, ?_⟩
  · rcases hl : snap.light with _ | ⟨_ | lx, ly⟩ <;> simp [lightTruthy, hl]
  · intro fo hfo
    simp only [renderFrame, selectSnapshot] at hfo
    cases hps : snap.players with
    | none =>
      rw [hps] at hfo
      simp [roomToWorld] at hfo
    | some ps =>
      rw [hps] at hfo
      simp only [Option.isSome_some, if_true] at hfo
      obtain rfl := Option.some.inj hfo
      exact ⟨rfl, rfl⟩
  · intro ly h
    rw [h]
    simp [lightTruthy]
  · intro h
    rw [h]
    simp [lightTruthy]

open GameCanvas in
/-- Witness for C10: the world whose light sits at x = 0 draws no marker. -/
theorem light_marker_truthiness_witness :
    zeroLightWorld.light = some ⟨some 0, some 7⟩
    ∧ lightTruthy zeroLightWorld.light = false :=
  ⟨rfl,
    (light_marker_truthiness zeroLightWorld (some "light") "me" 0).2.2.1
      (some 7) rfl⟩
